import Mathlib

/-!
Verification of the tixcraft-ticket-bot purchase-flow engine (auto_buy.py).

The file shallowly embeds the pure decision logic of the script: price
normalization, the captcha candidate grid and winner selection, the
click/fill fallback structure, the confirmation tiers, the quantity
selector scan, and the bounded generic advance loop.  Browser and OCR
primitives are external collaborators; each is modelled as an abstract
input (a boolean outcome, an `Except` result, or an opaque function)
so that the control flow written in the script is reproduced exactly.
-/

namespace AutoBuy

/-- Embeds `normalize_digits` (auto_buy.py line 19): keep only the digit
characters of `value`.  The Python `str.isdigit` test is modelled by
`Char.isDigit`; on the ASCII price strings this flow handles the two
predicates agree. -/
def normalize_digits (value : String) : String :=
  String.mk (value.data.filter fun ch => ch.isDigit)

/-- The comparison key used at auto_buy.py line 345:
`max(candidates, key=lambda s: (len(s), s), default="")` compares the
pairs `(len(s), s)` lexicographically.  `candidate_key_gt a b` holds
exactly when the key of `a` is strictly greater than the key of `b`. -/
def candidate_key_gt (a b : String) : Bool :=
  decide (b.length < a.length ∨ (a.length = b.length ∧ b < a))

/-- Running maximum over a list, keeping the earlier element on key ties,
exactly as the Python builtin `max` does. -/
def maxFold (init : String) (l : List String) : String :=
  l.foldl (fun best s => if candidate_key_gt s best then s else best) init

/-- Embeds `max(candidates, key=lambda s: (len(s), s), default="")`
(auto_buy.py line 345): the empty list yields the empty string, otherwise
the key-maximal candidate (first occurrence on ties). -/
def select_winner (candidates : List String) : String :=
  match candidates with
  | [] => ""
  | c :: rest => maxFold c rest

/-- Observation of one iteration of the generic advance loop in
`navigate_purchase_flow` (auto_buy.py lines 497-586): whether each click
tier would succeed, and whether the page content holds a success marker
at the end of the iteration. -/
structure NavObs where
  labelClick : Bool
  linkClick : Bool
  keywordButtonClick : Bool
  successMarker : Bool

/-- The `progressed` flag of one iteration (auto_buy.py lines 523-568):
the label tier runs first, the link tier only if it failed, the
keyword-button tier only if both failed. -/
def nav_progressed (o : NavObs) : Bool :=
  let p := o.labelClick
  let p := if p then p else o.linkClick
  let p := if p then p else o.keywordButtonClick
  p

/-- The loop body of `navigate_purchase_flow` (auto_buy.py lines
497-586) with explicit fuel: `for _ in range(20)` gives fuel 20.  Each
iteration attempts the click tiers, then returns if a success marker is
in the page content, then breaks if nothing progressed.  The result is
the number of iterations executed and whether a marker was found. -/
def nav_loop_aux (obs : Nat → NavObs) : Nat → Nat → Nat × Bool
  | 0, _ => (0, false)
  | fuel + 1, i =>
    if (obs i).successMarker then (1, true)
    else if nav_progressed (obs i) then
      ((nav_loop_aux obs fuel (i + 1)).1 + 1, (nav_loop_aux obs fuel (i + 1)).2)
    else (1, false)

/-- Embeds `navigate_purchase_flow` (auto_buy.py line 480): the advance
loop capped at 20 iterations, started on the first page state. -/
def navigate_purchase_flow (obs : Nat → NavObs) : Nat × Bool :=
  nav_loop_aux obs 20 0

/-- Abstract page behaviour driving the confirmation tiers of
`fill_captcha_and_confirm` (auto_buy.py lines 400-472): whether
`click_if_visible` succeeds on a given label, whether the
text-selector click on 確認張數 succeeds, whether the keyword-xpath
button click succeeds, and whether `page.locator("form").first`
resolves to a form. -/
structure ConfirmPage where
  roleClick : String → Bool
  textConfirmClick : Bool
  keywordClick : Bool
  formExists : Bool

/-- The ordered confirmation labels of auto_buy.py lines 400-408. -/
def confirm_labels : List String :=
  ["確認張數", "確認數量", "確認", "確定", "送出", "下一步", "下一步驟"]

/-- Trace of the confirmation phase: which label (if any) was clicked,
which fallback tiers were attempted, and whether the final form
submission happened. -/
structure ConfirmTrace where
  labelClicked : Option String
  textTierAttempted : Bool
  textClicked : Bool
  keywordTierAttempted : Bool
  keywordClicked : Bool
  formTierAttempted : Bool
  formSubmitted : Bool

/-- Embeds the confirmation tiers of `fill_captcha_and_confirm`
(auto_buy.py lines 409-472).  The label loop breaks on its first
success; its `else` clause runs the text-selector tier, whose handler
runs the keyword tier.  The form-submission block at lines 454-472 is
then executed unconditionally: if a form resolves it is submitted,
either through its native submit button or programmatically through
`requestSubmit`/`submit` (both outcomes are a submission). -/
def confirm_phase (pg : ConfirmPage) : ConfirmTrace :=
  match confirm_labels.find? pg.roleClick with
  | some lbl =>
      { labelClicked := some lbl, textTierAttempted := false, textClicked := false,
        keywordTierAttempted := false, keywordClicked := false,
        formTierAttempted := true, formSubmitted := pg.formExists }
  | none =>
      if pg.textConfirmClick then
        { labelClicked := none, textTierAttempted := true, textClicked := true,
          keywordTierAttempted := false, keywordClicked := false,
          formTierAttempted := true, formSubmitted := pg.formExists }
      else
        { labelClicked := none, textTierAttempted := true, textClicked := false,
          keywordTierAttempted := true, keywordClicked := pg.keywordClick,
          formTierAttempted := true, formSubmitted := pg.formExists }

/-- A grayscale image: rows of pixel intensities in 0..255, as produced
by `convert("L")` at auto_buy.py line 329. -/
abbrev GrayImage := List (List Nat)

/-- Embeds `ImageOps.invert` applied at auto_buy.py line 335: every
pixel intensity p becomes 255 - p. -/
def invert_image (img : GrayImage) : GrayImage :=
  img.map fun row => row.map fun p => 255 - p

/-- Embeds the binarization at auto_buy.py line 338:
`inv.point(lambda p, t=th: 255 if p > t else 0, mode="1")` maps a pixel
to white (255) when its intensity exceeds the threshold and to black
(0) otherwise. -/
def binarize_image (th : Nat) (img : GrayImage) : GrayImage :=
  img.map fun row => row.map fun p => if th < p then 255 else 0

/-- Embeds the stripping at auto_buy.py line 342: keep only the
alphanumeric characters of the raw recognition output. -/
def strip_alnum_only (raw : String) : String :=
  String.mk (raw.data.filter fun ch => ch.isAlphanum)

/-- The rotation grid of auto_buy.py line 332. -/
def captcha_angles : List Int := [-6, -4, -2, 0, 2, 4, 6]

/-- The binarization thresholds of auto_buy.py line 337. -/
def captcha_thresholds : List Nat := [115, 160]

/-- Embeds the candidate-generation loops of auto_buy.py lines 331-343.
`rotate a img` stands for the PIL call `img.rotate(a, expand=True,
fillcolor=255)` (expanded canvas, white fill) and `recognize` for
`pytesseract.image_to_string(bw, config=--psm 7)`, single-line
recognition; both are external collaborators, so they are opaque
parameters here.  For each angle the source rotates and inverts once,
then appends one stripped recognition result per threshold. -/
def captcha_candidates (rotate : Int → GrayImage → GrayImage)
    (recognize : GrayImage → String) (base : GrayImage) : List String :=
  captcha_angles.foldl (fun acc angle =>
    captcha_thresholds.foldl (fun acc2 th =>
      acc2 ++ [strip_alnum_only (recognize (binarize_image th (invert_image (rotate angle base))))])
      acc) []

/-- Abstract driver behaviour seen by `click_if_visible` (auto_buy.py
lines 95-107) for a given target text and timeout: the outcome of the
role-based resolve-wait-click attempt and of the exact-text fallback
click.  A driver failure of any kind (not found, timeout, detached) is
an `Except.error`. -/
structure ClickPage where
  roleClick : String → Nat → Except String Unit
  textClick : String → Nat → Except String Unit

/-- Whether a driver action succeeded. -/
def action_ok : Except String Unit → Bool
  | Except.ok _ => true
  | Except.error _ => false

/-- Embeds `click_if_visible` (auto_buy.py lines 95-107): try the
role-based button click; on any exception try the exact-text click; on
any exception return false.  No exception escapes. -/
def click_if_visible (pg : ClickPage) (text : String) (timeout_ms : Nat) : Bool :=
  match pg.roleClick text timeout_ms with
  | Except.ok _ => true
  | Except.error _ =>
    match pg.textClick text timeout_ms with
    | Except.ok _ => true
    | Except.error _ => false

/-- Abstract page behaviour for the captcha fill loop (auto_buy.py
lines 360-385): whether the fill succeeds on candidate locator i
(0 = placeholder 驗證碼, 1 = input[name*=captcha i],
2 = input[aria-label*=驗證碼], 3 = label 驗證碼) and whether the
generic fill on the first input of the page succeeds. -/
structure CaptchaFillPage where
  candFill : Nat → Bool
  genericFill : Bool

/-- Embeds the captcha fill logic of auto_buy.py lines 360-385 as the
trace of successful fill actions (locator index, value written).  The
loop over the four candidate locators breaks at the first success; the
generic first-input fill (index 4) runs only when no candidate fill
succeeded, and nothing is filled when the code string is empty. -/
def captcha_fill_trace (pg : CaptchaFillPage) (user_code : String) : List (Nat × String) :=
  if user_code = "" then []
  else
    match [0, 1, 2, 3].find? pg.candFill with
    | some i => [(i, user_code)]
    | none => if pg.genericFill then [(4, user_code)] else []

/-- The two locator attempts `click_if_visible` makes for one label:
the role-based wait uses the given timeout, and the exact-text fallback
click uses the same timeout (auto_buy.py lines 95-107). -/
def click_if_visible_attempts (text : String) (timeout_ms : Nat) : List (String × Nat) :=
  [(text, timeout_ms), (text, timeout_ms)]

/-- The locator attempts issued by `start_countdown_and_buy`
(auto_buy.py lines 119-149) with their per-attempt timeouts:
開始倒數計時 at 1000 ms (line 137), 立即購票 at 1000 ms (line 146) and
立即訂購 at 2000 ms (line 147). -/
def start_countdown_and_buy_attempts : List (String × Nat) :=
  click_if_visible_attempts "開始倒數計時" 1000 ++
  click_if_visible_attempts "立即購票" 1000 ++
  click_if_visible_attempts "立即訂購" 2000

/-- The click attempts issued by the seat-selection part of
`select_price_and_quantity` (auto_buy.py lines 168-199), each carrying
the configured default action timeout `timeout_ms`: the seat item under
the matching category header (line 181), the seat item adjacent to any
price text (line 189), the price text itself (line 192) and the
digits-matching element (line 197). -/
def select_price_and_quantity_attempts (timeout_ms : Nat) : List (String × Nat) :=
  [("category seat-item", timeout_ms),
   ("adjacent seat-item", timeout_ms),
   ("price text", timeout_ms),
   ("digits text-matches", timeout_ms)]

/-- One option element of a select control: its value attribute (absent
attributes read as `none`, Python `get_attribute` returning None) and
its stripped display text (auto_buy.py lines 210-216). -/
structure SelectOpt where
  value : Option String
  text : String

/-- One select control with its option elements. -/
structure SelectBox where
  options : List SelectOpt

/-- Embeds the membership test at auto_buy.py line 218:
`target in (values or []) or target in texts`. -/
def sel_has_target (target : String) (sel : SelectBox) : Bool :=
  sel.options.any (fun o => decide (o.value = some target)) ||
  sel.options.any (fun o => decide (o.text = target))

/-- Index of the first option whose value attribute equals the target:
the semantics of `sel.select_option(target)` (auto_buy.py line 220),
which matches options by value. -/
def option_index_by_value (target : String) : Nat → List SelectOpt → Option Nat
  | _, [] => none
  | j, o :: rest =>
    if o.value = some target then some j else option_index_by_value target (j + 1) rest

/-- Index of the first option whose display text equals the target: the
semantics of `sel.select_option(label=target)` (auto_buy.py line 224). -/
def option_index_by_label (target : String) : Nat → List SelectOpt → Option Nat
  | _, [] => none
  | j, o :: rest =>
    if o.text = target then some j else option_index_by_label target (j + 1) rest

/-- Embeds the inner try/except of auto_buy.py lines 219-225: select by
value first, and only if that raises, select by display label. -/
def choose_quantity_option (opts : List SelectOpt) (target : String) : Option Nat :=
  match option_index_by_value target 0 opts with
  | some j => some j
  | none => option_index_by_label target 0 opts

/-- Embeds the `for sel in selects` loop of auto_buy.py lines 208-226:
scan the select controls in order, act on the first one containing the
target among its option values or texts, and stop (`break`). Returns
the select index paired with the selected option index. -/
def select_quantity_go (target : String) : Nat → List SelectBox → Option (Nat × Nat)
  | _, [] => none
  | k, sel :: rest =>
    if sel_has_target target sel then
      match choose_quantity_option sel.options target with
      | some j => some (k, j)
      | none => none
    else select_quantity_go target (k + 1) rest

/-- Embeds the quantity-selection step of `select_price_and_quantity`
(auto_buy.py lines 202-228): guarded by `quantity and quantity > 0`,
the target is `str(quantity)`. -/
def select_quantity (quantity : Nat) (selects : List SelectBox) : Option (Nat × Nat) :=
  if 0 < quantity then select_quantity_go (toString quantity) 0 selects else none

/-- A screenshot or image-transform action of the OCR block. -/
inductive CaptureAction where
  | fullPageShot
  | elementShot
  | regionCrop
deriving DecidableEq

/-- Observation of what the OCR block would do if executed: the capture
actions it performs after its initial full-page debug screenshot, and
the candidate strings its recognition grid produces. -/
structure OcrPipelineObs where
  captures : List CaptureAction
  candidates : List String

/-- The body of the `if pytesseract and Image:` block of
`fill_captcha_and_confirm` (auto_buy.py lines 237-355): it always takes
the initial full-page debug screenshot (line 241), performs its capture
actions, and yields the winning candidate. -/
def ocr_block (obs : OcrPipelineObs) : String × List CaptureAction :=
  (select_winner obs.candidates, CaptureAction.fullPageShot :: obs.captures)

/-- Captcha text acquisition (auto_buy.py lines 235-355, the contract
`acquireCaptchaText` of the captcha pipeline): when no OCR engine is
configured (`pytesseract` or `Image` failed to import) the guard at
line 236 skips the whole block, so the result is empty and no capture
or transform action runs. -/
def acquire_captcha_text (engineAvailable : Bool) (obs : OcrPipelineObs) :
    String × List CaptureAction :=
  if engineAvailable then ocr_block obs else ("", [])

/-- Embeds the operator fallback at auto_buy.py lines 357-358: when the
acquired code is empty the operator is prompted and the reply is
whitespace-stripped, otherwise the acquired code is used. -/
def resolve_user_code (acquired : String) (operatorInput : String) : String :=
  if acquired = "" then operatorInput.trim else acquired

/-! ## Helper lemmas on the candidate key order -/

theorem candidate_key_gt_irrefl (a : String) : candidate_key_gt a a = false := by
  simp [candidate_key_gt]

theorem candidate_key_le_trans {a b c : String}
    (hab : candidate_key_gt a b = false) (hbc : candidate_key_gt b c = false) :
    candidate_key_gt a c = false := by
  simp only [candidate_key_gt, decide_eq_false_iff_not, not_or, not_and] at hab hbc ⊢
  obtain ⟨h1, h2⟩ := hab
  obtain ⟨h3, h4⟩ := hbc
  have l1 : a.length ≤ b.length := Nat.not_lt.mp h1
  have l2 : b.length ≤ c.length := Nat.not_lt.mp h3
  refine ⟨by omega, fun heq hlt => ?_⟩
  have e1 : a.length = b.length := by omega
  have e2 : b.length = c.length := by omega
  have hba : a ≤ b := not_lt.mp (h2 e1)
  have hcb : b ≤ c := not_lt.mp (h4 e2)
  exact absurd (hba.trans hcb) (not_le.mpr hlt)

theorem candidate_key_lt_le {a b c : String}
    (hab : candidate_key_gt b a = true) (hbc : candidate_key_gt b c = false) :
    candidate_key_gt a c = false := by
  simp only [candidate_key_gt, decide_eq_true_eq, decide_eq_false_iff_not, not_or,
    not_and] at hab hbc ⊢
  obtain ⟨h3, h4⟩ := hbc
  have l2 : b.length ≤ c.length := Nat.not_lt.mp h3
  rcases hab with hlen | ⟨heq, hlt⟩
  · exact ⟨by omega, fun hac _ => by omega⟩
  · refine ⟨by omega, fun hac hca => ?_⟩
    have e2 : b.length = c.length := by omega
    have hbc2 : b ≤ c := not_lt.mp (h4 e2)
    exact absurd (hlt.trans_le hbc2) (not_lt.mpr hca.le)

theorem maxFold_mem : ∀ (l : List String) (init : String),
    maxFold init l = init ∨ maxFold init l ∈ l := by
  intro l
  induction l with
  | nil => intro init; exact Or.inl rfl
  | cons x xs ih =>
    intro init
    have hfold : maxFold init (x :: xs) =
        maxFold (if candidate_key_gt x init then x else init) xs := rfl
    rcases ih (if candidate_key_gt x init then x else init) with h | h
    · by_cases hx : candidate_key_gt x init = true
      · right
        rw [hfold, h, if_pos hx]
        exact List.mem_cons_self x xs
      · left
        rw [hfold, h, if_neg hx]
    · right
      rw [hfold]
      exact List.mem_cons_of_mem _ h

theorem maxFold_not_gt : ∀ (l : List String) (init c : String),
    (c = init ∨ c ∈ l) → candidate_key_gt c (maxFold init l) = false := by
  intro l
  induction l with
  | nil =>
    intro init c hc
    rcases hc with heq | h
    · rw [heq]; exact candidate_key_gt_irrefl init
    · cases h
  | cons x xs ih =>
    intro init c hc
    have hfold : maxFold init (x :: xs) =
        maxFold (if candidate_key_gt x init then x else init) xs := rfl
    rw [hfold]
    by_cases hx : candidate_key_gt x init = true
    · rw [if_pos hx]
      rcases hc with heq | hmem
      · rw [heq]
        exact candidate_key_lt_le hx (ih x x (Or.inl rfl))
      · rcases List.mem_cons.mp hmem with heq | h
        · rw [heq]
          exact ih x x (Or.inl rfl)
        · exact ih x c (Or.inr h)
    · have hx2 : candidate_key_gt x init = false := by simpa using hx
      rw [if_neg hx]
      rcases hc with heq | hmem
      · rw [heq]
        exact ih init init (Or.inl rfl)
      · rcases List.mem_cons.mp hmem with heq | h
        · rw [heq]
          exact candidate_key_le_trans hx2 (ih init init (Or.inl rfl))
        · exact ih init c (Or.inr h)

theorem select_winner_mem (cs : List String) :
    select_winner cs ∈ cs ∨ (cs = [] ∧ select_winner cs = "") := by
  cases cs with
  | nil => exact Or.inr ⟨rfl, rfl⟩
  | cons c rest =>
    rcases maxFold_mem rest c with h | h
    · exact Or.inl (by rw [select_winner, h]; exact List.mem_cons_self c rest)
    · exact Or.inl (List.mem_cons_of_mem _ h)

theorem select_winner_not_gt (cs : List String) (c : String) (hc : c ∈ cs) :
    candidate_key_gt c (select_winner cs) = false := by
  cases cs with
  | nil => cases hc
  | cons x rest =>
    rcases List.mem_cons.mp hc with heq | h
    · exact maxFold_not_gt rest x c (Or.inl heq)
    · exact maxFold_not_gt rest x c (Or.inr h)

theorem select_winner_all_empty (cs : List String) (h : ∀ c ∈ cs, c = "") :
    select_winner cs = "" := by
  rcases select_winner_mem cs with hm | ⟨_, he⟩
  · exact h _ hm
  · exact he

/-! ## Helper lemmas on the advance loop -/

theorem nav_loop_aux_le (obs : Nat → NavObs) : ∀ (fuel i : Nat),
    (nav_loop_aux obs fuel i).1 ≤ fuel := by
  intro fuel
  induction fuel with
  | zero => intro i; exact Nat.le_refl 0
  | succ n ih =>
    intro i
    show (if (obs i).successMarker then ((1 : Nat), true)
      else if nav_progressed (obs i) then
        ((nav_loop_aux obs n (i + 1)).1 + 1, (nav_loop_aux obs n (i + 1)).2)
      else (1, false)).1 ≤ n + 1
    by_cases h1 : (obs i).successMarker = true
    · rw [if_pos h1]
      exact Nat.succ_le_succ (Nat.zero_le n)
    · rw [if_neg h1]
      by_cases h2 : nav_progressed (obs i) = true
      · rw [if_pos h2]
        exact Nat.succ_le_succ (ih (i + 1))
      · rw [if_neg h2]
        exact Nat.succ_le_succ (Nat.zero_le n)

/-! ## Claim theorems -/

/-- Claim C1: for every list of OCR candidate strings, the selected
winner is a candidate of maximal length, ties among equal-length
candidates broken by taking the lexicographically greatest; the
selection is a total function, the empty list yields the empty string,
and an all-empty list yields the empty string. -/
theorem select_winner_spec (cs : List String) :
    (select_winner cs ∈ cs ∨ (cs = [] ∧ select_winner cs = "")) ∧
    (∀ c ∈ cs, c.length ≤ (select_winner cs).length) ∧
    (∀ c ∈ cs, c.length = (select_winner cs).length → c ≤ select_winner cs) ∧
    ((∀ c ∈ cs, c = "") → select_winner cs = "") := by
  refine ⟨select_winner_mem cs, ?_, ?_, select_winner_all_empty cs⟩
  · intro c hc
    have h := select_winner_not_gt cs c hc
    simp only [candidate_key_gt, decide_eq_false_iff_not, not_or] at h
    exact Nat.not_lt.mp h.1
  · intro c hc hlen
    have h := select_winner_not_gt cs c hc
    simp only [candidate_key_gt, decide_eq_false_iff_not, not_or, not_and] at h
    exact not_lt.mp (h.2 hlen)

/-- Claim C2: for every sequence of page states, the generic advance
loop executes at most 20 iterations and terminates; an iteration whose
page content holds a success marker ends the loop at once with a found
result, and an iteration in which no click succeeded and no marker was
found ends the loop at once without one. -/
theorem navigate_purchase_flow_spec (obs : Nat → NavObs) :
    (navigate_purchase_flow obs).1 ≤ 20 ∧
    (∀ fuel i, (obs i).successMarker = true →
      nav_loop_aux obs (fuel + 1) i = (1, true)) ∧
    (∀ fuel i, (obs i).successMarker = false → nav_progressed (obs i) = false →
      nav_loop_aux obs (fuel + 1) i = (1, false)) := by
  refine ⟨nav_loop_aux_le obs 20 0, ?_, ?_⟩
  · intro fuel i h
    simp [nav_loop_aux, h]
  · intro fuel i h1 h2
    simp [nav_loop_aux, h1, h2]

/-- Claim C4: the captcha pipeline produces exactly one candidate per
pair of a rotation angle in {-6,-4,-2,0,2,4,6} and a threshold in
{115,160} — 14 candidates in all, in grid order — and each candidate is
the alphanumeric-stripped recognition of the binarized inversion of the
rotated base image; the binarization maps a pixel to black (0) when its
intensity is at most the threshold and to white (255) otherwise, and
the inversion maps intensity p to 255 - p. -/
theorem captcha_candidates_spec (rotate : Int → GrayImage → GrayImage)
    (recognize : GrayImage → String) (base : GrayImage) :
    captcha_candidates rotate recognize base =
      [strip_alnum_only (recognize (binarize_image 115 (invert_image (rotate (-6) base)))),
       strip_alnum_only (recognize (binarize_image 160 (invert_image (rotate (-6) base)))),
       strip_alnum_only (recognize (binarize_image 115 (invert_image (rotate (-4) base)))),
       strip_alnum_only (recognize (binarize_image 160 (invert_image (rotate (-4) base)))),
       strip_alnum_only (recognize (binarize_image 115 (invert_image (rotate (-2) base)))),
       strip_alnum_only (recognize (binarize_image 160 (invert_image (rotate (-2) base)))),
       strip_alnum_only (recognize (binarize_image 115 (invert_image (rotate 0 base)))),
       strip_alnum_only (recognize (binarize_image 160 (invert_image (rotate 0 base)))),
       strip_alnum_only (recognize (binarize_image 115 (invert_image (rotate 2 base)))),
       strip_alnum_only (recognize (binarize_image 160 (invert_image (rotate 2 base)))),
       strip_alnum_only (recognize (binarize_image 115 (invert_image (rotate 4 base)))),
       strip_alnum_only (recognize (binarize_image 160 (invert_image (rotate 4 base)))),
       strip_alnum_only (recognize (binarize_image 115 (invert_image (rotate 6 base)))),
       strip_alnum_only (recognize (binarize_image 160 (invert_image (rotate 6 base))))] ∧
    (captcha_candidates rotate recognize base).length = 14 ∧
    (∀ th img, binarize_image th img =
      img.map fun row => row.map fun p => if p ≤ th then 0 else 255) ∧
    (∀ img, invert_image img = img.map fun row => row.map fun p => 255 - p) := by
  refine ⟨rfl, rfl, ?_, fun _ => rfl⟩
  intro th img
  have hf : (fun p => if th < p then (255 : Nat) else 0) =
      (fun p => if p ≤ th then 0 else 255) := by
    funext p
    rcases Nat.lt_or_ge th p with h | h
    · rw [if_pos h, if_neg (Nat.not_le.mpr h)]
    · rw [if_neg (Nat.not_lt.mpr h), if_pos h]
  rw [binarize_image, hf]

/-- Claim C5: for every target text, timeout and page state, the click
step returns a boolean: true exactly when the role-based click or the
exact-text fallback click succeeds, false exactly when both fail; every
driver failure is consumed, never propagated. -/
theorem click_if_visible_spec (pg : ClickPage) (text : String) (timeout_ms : Nat) :
    (click_if_visible pg text timeout_ms = true ↔
      (action_ok (pg.roleClick text timeout_ms) = true ∨
       action_ok (pg.textClick text timeout_ms) = true)) ∧
    (click_if_visible pg text timeout_ms = false ↔
      (action_ok (pg.roleClick text timeout_ms) = false ∧
       action_ok (pg.textClick text timeout_ms) = false)) := by
  cases h1 : pg.roleClick text timeout_ms <;>
    cases h2 : pg.textClick text timeout_ms <;>
      simp [click_if_visible, action_ok, h1, h2]

/-- Claim C3 counterexample: on a page where the confirmation label
確認張數 is clickable and a form exists, the ordered-label tier clicks
its label and the form-submission tier is nevertheless attempted (and
submits the form), refuting that each fallback tier is attempted only
if the prior tier found nothing. -/
theorem confirm_tiers_counterexample :
    (confirm_phase ⟨fun _ => true, false, false, true⟩).labelClicked = some "確認張數" ∧
    (confirm_phase ⟨fun _ => true, false, false, true⟩).formTierAttempted = true ∧
    (confirm_phase ⟨fun _ => true, false, false, true⟩).formSubmitted = true :=
  ⟨rfl, rfl, rfl⟩

/-- Claim C3 (amended): the text-selector tier runs exactly when no
confirmation label was clicked and the keyword tier exactly when
additionally the text-selector click failed, while the form-submission
tier runs unconditionally at the end of the phase; in particular, when
every confirmation label such as 確認張數 is absent but a form exists,
the phase submits the form programmatically rather than failing. -/
theorem confirm_tiers_amended (pg : ConfirmPage) :
    ((confirm_phase pg).textTierAttempted = true ↔ (confirm_phase pg).labelClicked = none) ∧
    ((confirm_phase pg).keywordTierAttempted = true ↔
      ((confirm_phase pg).labelClicked = none ∧ (confirm_phase pg).textClicked = false)) ∧
    (confirm_phase pg).formTierAttempted = true ∧
    ((∀ l ∈ confirm_labels, pg.roleClick l = false) → pg.formExists = true →
      (confirm_phase pg).formSubmitted = true) := by
  cases hf : confirm_labels.find? pg.roleClick with
  | some lbl => simp [confirm_phase, hf]
  | none =>
    cases ht : pg.textConfirmClick <;> simp [confirm_phase, hf, ht]

/-- Claim C6: at most one captcha fill action runs per page visit,
every fill writes the single captcha string, the candidate-locator
loop stops at the first locator that fills successfully, and the
generic first-input fill (index 4) runs only when no candidate locator
filled. -/
theorem captcha_fill_once (pg : CaptchaFillPage) (code : String) :
    (captcha_fill_trace pg code).length ≤ 1 ∧
    (∀ e ∈ captcha_fill_trace pg code, e.2 = code) ∧
    ((4, code) ∈ captcha_fill_trace pg code → ∀ i ∈ [0, 1, 2, 3], pg.candFill i = false) ∧
    (∀ i, (i, code) ∈ captcha_fill_trace pg code → i ∈ [0, 1, 2, 3] →
      pg.candFill i = true ∧ ∀ j ∈ [0, 1, 2, 3], j < i → pg.candFill j = false) := by
  by_cases hc : code = ""
  · simp [captcha_fill_trace, hc]
  · cases h0 : pg.candFill 0 <;> cases h1 : pg.candFill 1 <;> cases h2 : pg.candFill 2 <;>
      cases h3 : pg.candFill 3 <;> cases hg : pg.genericFill <;>
        simp [captcha_fill_trace, hc, List.find?, h0, h1, h2, h3, hg]

/-- Claim C7 counterexample: the 立即訂購 attempt in
start_countdown_and_buy carries a 2000 ms timeout, and the seat-item
click attempts in select_price_and_quantity carry the configured
default action timeout (15000 ms by default); both exceed the claimed
1200 ms per-attempt bound. -/
theorem attempt_timeout_counterexample :
    ("立即訂購", 2000) ∈ start_countdown_and_buy_attempts ∧ ¬(2000 ≤ 1200) ∧
    ("category seat-item", 15000) ∈ select_price_and_quantity_attempts 15000 ∧
    ¬(15000 ≤ 1200) := by
  decide

/-- Claim C7 (amended): every locator-strategy attempt carries its own
explicit timeout, but the bound is 2000 ms in start_countdown_and_buy,
and the click attempts of select_price_and_quantity use the configured
default action timeout rather than any fixed 1200 ms bound. -/
theorem attempt_timeouts_amended :
    (∀ a ∈ start_countdown_and_buy_attempts, a.2 ≤ 2000) ∧
    (∀ timeout_ms : Nat, ∀ a ∈ select_price_and_quantity_attempts timeout_ms,
      a.2 = timeout_ms) := by
  refine ⟨by decide, ?_⟩
  intro t a ha
  simp only [select_price_and_quantity_attempts, List.mem_cons, List.not_mem_nil,
    or_false] at ha
  rcases ha with h | h | h | h <;> simp [h]

theorem option_index_by_value_spec (target : String) :
    ∀ (opts : List SelectOpt) (j0 j : Nat),
    option_index_by_value target j0 opts = some j →
    j0 ≤ j ∧ ∃ opt, opts.get? (j - j0) = some opt ∧ opt.value = some target := by
  intro opts
  induction opts with
  | nil => intro j0 j h; simp [option_index_by_value] at h
  | cons o rest ih =>
    intro j0 j h
    rw [option_index_by_value] at h
    by_cases hv : o.value = some target
    · rw [if_pos hv] at h
      injection h with h
      refine ⟨h.le, o, ?_, hv⟩
      rw [← h, Nat.sub_self]
      rfl
    · rw [if_neg hv] at h
      obtain ⟨hle, opt, hget, hvv⟩ := ih (j0 + 1) j h
      refine ⟨by omega, opt, ?_, hvv⟩
      have hshift : j - j0 = (j - (j0 + 1)) + 1 := by omega
      rw [hshift, List.get?_cons_succ]
      exact hget

theorem option_index_by_label_spec (target : String) :
    ∀ (opts : List SelectOpt) (j0 j : Nat),
    option_index_by_label target j0 opts = some j →
    j0 ≤ j ∧ ∃ opt, opts.get? (j - j0) = some opt ∧ opt.text = target := by
  intro opts
  induction opts with
  | nil => intro j0 j h; simp [option_index_by_label] at h
  | cons o rest ih =>
    intro j0 j h
    rw [option_index_by_label] at h
    by_cases hv : o.text = target
    · rw [if_pos hv] at h
      injection h with h
      refine ⟨h.le, o, ?_, hv⟩
      rw [← h, Nat.sub_self]
      rfl
    · rw [if_neg hv] at h
      obtain ⟨hle, opt, hget, hvv⟩ := ih (j0 + 1) j h
      refine ⟨by omega, opt, ?_, hvv⟩
      have hshift : j - j0 = (j - (j0 + 1)) + 1 := by omega
      rw [hshift, List.get?_cons_succ]
      exact hget

theorem option_index_by_value_none (target : String) :
    ∀ (opts : List SelectOpt) (j0 : Nat),
    option_index_by_value target j0 opts = none → ∀ o ∈ opts, o.value ≠ some target := by
  intro opts
  induction opts with
  | nil => intro j0 _ o ho; cases ho
  | cons o rest ih =>
    intro j0 h o2 ho
    rw [option_index_by_value] at h
    by_cases hv : o.value = some target
    · rw [if_pos hv] at h; cases h
    · rw [if_neg hv] at h
      rcases List.mem_cons.mp ho with heq | hmem
      · rw [heq]; exact hv
      · exact ih (j0 + 1) h o2 hmem

theorem choose_quantity_option_spec (opts : List SelectOpt) (target : String) (j : Nat)
    (h : choose_quantity_option opts target = some j) :
    ∃ opt, opts.get? j = some opt ∧
      (opt.value = some target ∨
       (opt.text = target ∧ ∀ o ∈ opts, o.value ≠ some target)) := by
  rw [choose_quantity_option] at h
  cases hv : option_index_by_value target 0 opts with
  | some j2 =>
    rw [hv] at h
    injection h with h
    obtain ⟨_, opt, hget, hval⟩ := option_index_by_value_spec target opts 0 j2 hv
    rw [← h]
    exact ⟨opt, by simpa using hget, Or.inl hval⟩
  | none =>
    rw [hv] at h
    obtain ⟨_, opt, hget, htxt⟩ := option_index_by_label_spec target opts 0 j h
    exact ⟨opt, by simpa using hget,
      Or.inr ⟨htxt, option_index_by_value_none target opts 0 hv⟩⟩

theorem select_quantity_go_spec (target : String) :
    ∀ (selects : List SelectBox) (k0 k j : Nat),
    select_quantity_go target k0 selects = some (k, j) →
    k0 ≤ k ∧ ∃ sel, selects.get? (k - k0) = some sel ∧
      choose_quantity_option sel.options target = some j := by
  intro selects
  induction selects with
  | nil => intro k0 k j h; simp [select_quantity_go] at h
  | cons sel rest ih =>
    intro k0 k j h
    rw [select_quantity_go] at h
    by_cases hm : sel_has_target target sel = true
    · rw [if_pos hm] at h
      cases hco : choose_quantity_option sel.options target with
      | some j2 =>
        rw [hco] at h
        injection h with h
        obtain ⟨hk, hj⟩ := Prod.mk.injEq .. ▸ h
        · refine ⟨hk.le, sel, ?_, ?_⟩
          · rw [← hk, Nat.sub_self]; rfl
          · rw [hco, hj]
      | none => rw [hco] at h; cases h
    · rw [if_neg hm] at h
      obtain ⟨hle, sel2, hget, hco⟩ := ih (k0 + 1) k j h
      refine ⟨by omega, sel2, ?_, hco⟩
      have hshift : k - k0 = (k - (k0 + 1)) + 1 := by omega
      rw [hshift, List.get?_cons_succ]
      exact hget

/-- Claim C8: whenever quantity selection picks an option, that option
matches the string form of the target quantity by its value attribute,
or by its display text when no option of that select matches by value —
never positionally; and on a select with option values 0, 1, 2 and
display texts -, A, B with target 1, the option with value 1 (index 1)
inside the first select is chosen, regardless of display text. -/
theorem select_quantity_spec :
    (∀ (quantity : Nat) (selects : List SelectBox) (k j : Nat),
      select_quantity quantity selects = some (k, j) →
      ∃ sel, selects.get? k = some sel ∧
        ∃ opt, sel.options.get? j = some opt ∧
          (opt.value = some (toString quantity) ∨
           (opt.text = toString quantity ∧
            ∀ o ∈ sel.options, o.value ≠ some (toString quantity)))) ∧
    select_quantity 1 [⟨[⟨some "0", "-"⟩, ⟨some "1", "A"⟩, ⟨some "2", "B"⟩]⟩] =
      some (0, 1) := by
  constructor
  · intro quantity selects k j h
    rw [select_quantity] at h
    by_cases hq : 0 < quantity
    · rw [if_pos hq] at h
      obtain ⟨_, sel, hget, hco⟩ := select_quantity_go_spec (toString quantity) selects 0 k j h
      exact ⟨sel, by simpa using hget, choose_quantity_option_spec sel.options _ j hco⟩
    · rw [if_neg hq] at h; cases h
  · decide

/-- Claim C9: when no text-recognition engine is configured the captcha
acquisition returns the empty string with no capture or transform
action, and the caller then takes the operator input (whitespace
stripped); the operator fallback is likewise taken whenever the winning
OCR candidate is empty, in particular when every candidate is empty. -/
theorem acquire_captcha_text_spec (engineAvailable : Bool) (obs : OcrPipelineObs)
    (op : String) :
    (engineAvailable = false → acquire_captcha_text engineAvailable obs = ("", [])) ∧
    ((acquire_captcha_text engineAvailable obs).1 = "" →
      resolve_user_code (acquire_captcha_text engineAvailable obs).1 op = op.trim) ∧
    ((∀ c ∈ obs.candidates, c = "") →
      resolve_user_code (acquire_captcha_text engineAvailable obs).1 op = op.trim) := by
  refine ⟨fun h => by simp [acquire_captcha_text, h],
    fun h => by simp only [resolve_user_code]; rw [if_pos h], fun hall => ?_⟩
  cases hE : engineAvailable
  · simp [acquire_captcha_text, resolve_user_code]
  · have hw : select_winner obs.candidates = "" := select_winner_all_empty _ hall
    simp [acquire_captcha_text, ocr_block, hw, resolve_user_code]

/-- Claim C10: price normalization is total and idempotent, and the two
concrete evaluations of the specification hold. -/
theorem normalize_digits_spec :
    (∀ s, normalize_digits (normalize_digits s) = normalize_digits s) ∧
    normalize_digits "NT$2,800" = "2800" ∧
    normalize_digits "" = "" := by
  refine ⟨fun s => ?_, rfl, rfl⟩
  show String.mk (List.filter _ (List.filter _ s.data)) = _
  rw [List.filter_filter]
  simp [normalize_digits]

end AutoBuy
